import Mathlib

/-!
# Verification of the insight-engine AUV core

Shallow embedding of the two source files of the repository:

* `app/main.py` — the `ConnectionManager` subscriber registry (connect /
  disconnect / broadcast, guarded by a single non-reentrant async lock) and
  the `monitor_telemetry` reconnect loop.
* `app/services/insights.py` — `InsightParams`, `_parse_point_wkt`, and
  `fetch_insights` (alert listing with cursor pagination, summary-mode
  derivation, timeseries and stats summary blocks).

Modelling conventions:

* Timestamps (`datetime` values) are modelled as natural numbers (epoch
  seconds).  `datetime.isoformat` is modelled as the decimal rendering of
  that natural number and `datetime.fromisoformat` as the corresponding
  decimal reading; like the real pair they are injective, order preserving
  and round-trip exactly, and reject non-numeric text.  `datetime`
  subtraction is truncated at zero.
* Python `float` values are modelled as rationals; the literal reader
  `floatChars?` covers the sign / digits / fraction fragment of Python
  `float(...)` which is the fragment exercised by well-known-text points.
* Python truthiness of `Optional[str]` / `Optional[List[...]]` parameters
  (`None` and empty are falsy) is modelled explicitly.
* SQL queries are modelled as filter / sort / take over the stored row
  lists; `NULL` comparison semantics exclude rows with a missing timestamp
  from the telemetry window query.  The alert `SELECT` column list of the
  source omits `id`, so reading `last.id` when building `next_cursor` is
  modelled as the `AttributeError` the storage row raises there.
* The `asyncio.Lock` of `ConnectionManager` is not reentrant; an operation
  that awaits it while the same task already holds it never resumes.  Such
  blocked calls are modelled by returning `none`.
-/

/-! ## Decimal digits: model of `isoformat` / `fromisoformat` / `int(...)` -/

/-- The character of a single decimal digit. -/
def digitChar : ℕ → Char
  | 0 => '0' | 1 => '1' | 2 => '2' | 3 => '3' | 4 => '4'
  | 5 => '5' | 6 => '6' | 7 => '7' | 8 => '8' | 9 => '9'
  | _ => '*'

/-- Numeric value of a decimal digit character. -/
def digVal (c : Char) : ℕ := c.toNat - '0'.toNat

/-- Decimal rendering of a natural number, most significant digit first;
`fuel` bounds the recursion and any `fuel > n` gives the full rendering. -/
def natCharsAux : ℕ → ℕ → List Char
  | 0, _ => []
  | fuel + 1, n =>
    if n < 10 then [digitChar n]
    else natCharsAux fuel (n / 10) ++ [digitChar (n % 10)]

/-- Decimal rendering of a natural number (model of `str` / `isoformat`). -/
def natChars (n : ℕ) : List Char := natCharsAux (n + 1) n

/-- Decimal rendering of an integer (model of `str` on Python `int`). -/
def intChars (i : ℤ) : List Char :=
  if i < 0 then '-' :: natChars i.natAbs else natChars i.toNat

/-- Fold a digit list onto an accumulator, most significant digit first. -/
def decFold (s : ℕ) (l : List Char) : ℕ := l.foldl (fun a c => 10 * a + digVal c) s

/-- Read a decimal natural number; `none` unless the text is a nonempty
all-digit string (model of `datetime.fromisoformat` success on our
timestamp encoding). -/
def decNat? (l : List Char) : Option ℕ :=
  if l ≠ [] ∧ l.all Char.isDigit then some (decFold 0 l) else none

/-- Read a decimal integer with an optional leading minus sign (model of
Python `int(...)` on the texts this system produces). -/
def decInt? (l : List Char) : Option ℤ :=
  if l.head? = some '-' then (decNat? l.tail).map (fun n => -(Int.ofNat n))
  else (decNat? l).map Int.ofNat

/-- Split a character list at the first occurrence of `sep`: model of
Python `s.split(sep, 1)` (`none` when `sep` does not occur, in which case
two-element unpacking raises). -/
def splitFirstChar (sep : Char) : List Char → Option (List Char × List Char)
  | [] => none
  | c :: rest =>
    if c = sep then some ([], rest)
    else (splitFirstChar sep rest).map (fun p => (c :: p.1, p.2))

/-! ## `insights.py`: pagination cursor -/

/-- `insights.py` line 124: the cursor text
`f"{last.started_at.isoformat()}|{last.id}"`. -/
def encode_cursor (started_at : ℕ) (id : ℤ) : String :=
  ⟨natChars started_at ++ '|' :: intChars id⟩

/-- `insights.py` lines 86-89: split the cursor once on `|`, read the
timestamp and the integer id; any failure is caught (`none`). -/
def decode_cursor (s : String) : Option (ℕ × ℤ) :=
  match splitFirstChar '|' s.toList with
  | none => none
  | some (a, b) =>
    match decNat? a, decInt? b with
    | some t, some i => some (t, i)
    | _, _ => none

/-! ## `insights.py`: data model -/

/-- A stored row of the `alerts` table. -/
structure AlertRow where
  id : ℤ
  auv_id : String
  type : String
  severity : String
  status : String
  message : String
  started_at : ℕ
deriving DecidableEq

/-- A stored row of the `telemetry` table. -/
structure TelemetryRow where
  auv_id : String
  timestamp : Option ℕ
  temperature_c : ℚ
  depth_m : ℚ
  velocity_knots : ℚ
  location_wkt : Option String
deriving DecidableEq

/-- The two stored record sets the queries read. -/
structure DB where
  alerts : List AlertRow
  telemetry : List TelemetryRow
deriving DecidableEq

/-- `insights.py` lines 21-32: the `InsightParams` dataclass with its
field defaults. -/
structure InsightParams where
  auv_id : Option String := none
  type : Option String := none
  limit : ℤ := 20
  summary : Bool := false
  summary_modes : Option (List String) := none
  window_minutes : ℕ := 20
  timeseries_limit : ℤ := 30
  timeseries_fields : Option (List String) := none
  since : Option ℕ := none
  cursor : Option String := none
deriving DecidableEq

/-- Python truthiness of an `Optional[str]`: `None` and `""` are falsy. -/
def truthyStr : Option String → Bool
  | none => false
  | some s => s ≠ ""

/-- `insights.py` line 17 (membership semantics of the allowed-mode set). -/
def SUMMARY_MODES_ALLOWED : List String := ["timeseries", "stats"]

/-- `insights.py` line 18 (membership semantics of the allowed-field set). -/
def TIMESERIES_ALLOWED_FIELDS : List String :=
  ["temperature_c", "depth_m", "velocity_knots", "location"]

/-- `insights.py` lines 61-62: the in-place clamping of `limit` to
`[1, 100]` and `timeseries_limit` to `[10, 2000]` performed on the passed
params object. -/
def clampParams (p : InsightParams) : InsightParams :=
  { p with
    limit := max 1 (min p.limit 100)
    timeseries_limit := max 10 (min p.timeseries_limit 2000) }

/-- `insights.py` lines 63-71: derive the active summary-mode list. -/
def deriveModes (summary : Bool) (summary_modes : Option (List String)) : List String :=
  let modes : List String := []
  let modes := if summary ∧ (summary_modes.getD []) = [] then modes ++ ["timeseries"] else modes
  let modes :=
    match summary_modes with
    | none => modes
    | some ms =>
      if ms = [] then modes
      else ms.foldl (fun acc m => if m ∈ acc then acc else acc ++ [m]) modes
  modes.filter (· ∈ SUMMARY_MODES_ALLOWED)

/-- Spec wording for mode normalisation: de-duplicate preserving first-seen
order (keep the first occurrence, drop the later ones). -/
def dedupFirstSeen : List String → List String
  | [] => []
  | x :: xs => x :: dedupFirstSeen (xs.filter (· ≠ x))
termination_by l => l.length
decreasing_by
  simp only [List.length_cons]
  exact Nat.lt_succ_of_le (List.length_filter_le _ _)

/-! ## `insights.py`: alert listing query -/

/-- `insights.py` lines 85-94: the filter clause contributed by the cursor
parameter.  A falsy cursor (absent or empty) adds no clause; a cursor whose
decoding fails adds no clause (the exception is swallowed); otherwise rows
must be strictly before the `(started_at, id)` boundary in the compound
descending order. -/
def cursorFilter (cursor : Option String) (r : AlertRow) : Bool :=
  match cursor with
  | none => true
  | some s =>
    if s = "" then true
    else
      match decode_cursor s with
      | none => true
      | some (ct, cid) => decide (r.started_at < ct ∨ (r.started_at = ct ∧ r.id < cid))

/-- `insights.py` lines 74-95: the conjunction of the optional `auv_id`,
`type`, `since` and cursor filters (truthiness of the string filters as in
the source; `since` keeps rows with `started_at > since`). -/
def alertPred (p : InsightParams) (r : AlertRow) : Bool :=
  (match p.auv_id with
   | none => true
   | some a => if a = "" then true else r.auv_id = a)
  && (match p.type with
      | none => true
      | some t => if t = "" then true else r.type = t)
  && (match p.since with
      | none => true
      | some t => decide (t < r.started_at))
  && cursorFilter p.cursor r

/-- `ORDER BY started_at DESC, id DESC` (`insights.py` line 101): `a`
comes no later than `b` in the result order. -/
def alertOrd (a b : AlertRow) : Prop :=
  b.started_at < a.started_at ∨ (b.started_at = a.started_at ∧ b.id ≤ a.id)

instance : DecidableRel alertOrd := fun a b => by unfold alertOrd; infer_instance

/-- A Python exception escaping the service call. -/
inductive PyErr
  | attributeError (name : String)
deriving DecidableEq

/-- One row of the alert listing as emitted (`insights.py` lines 111-120);
the `SELECT` column list has exactly these six columns — no `id`. -/
structure AlertOut where
  auv_id : String
  type : String
  severity : String
  status : String
  message : String
  started_at : String
deriving DecidableEq

/-- Emitted form of a selected alert row. -/
def alertOut (r : AlertRow) : AlertOut :=
  { auv_id := r.auv_id, type := r.type, severity := r.severity,
    status := r.status, message := r.message,
    started_at := ⟨natChars r.started_at⟩ }

/-- `insights.py` lines 95-124: run the alert listing query (filter, sort
by `(started_at DESC, id DESC)`, take `limit` rows) and build the rows and
the pagination cursor.  When the page is full the source evaluates
`last.id`, but `id` is not among the selected columns, so the storage row
raises `AttributeError` there and the whole request fails. -/
def alertsListing (db : DB) (p : InsightParams) : Except PyErr (List AlertOut × Option String) :=
  let rows := (List.insertionSort alertOrd (db.alerts.filter (alertPred p))).take p.limit.toNat
  let alerts := rows.map alertOut
  if rows ≠ [] ∧ (rows.length : ℤ) = p.limit then
    Except.error (PyErr.attributeError "id")
  else Except.ok (alerts, none)

/-! ## `insights.py`: `_parse_point_wkt` -/

/-- Strip leading and trailing whitespace (model of `str.strip`). -/
def trimChars (l : List Char) : List Char :=
  ((l.dropWhile Char.isWhitespace).reverse.dropWhile Char.isWhitespace).reverse

/-- Split on whitespace runs, dropping empty words (model of `str.split`
with no separator). -/
def wordsOf (l : List Char) : List (List Char) :=
  (l.foldr
    (fun c acc =>
      if c.isWhitespace then [] :: acc
      else
        match acc with
        | [] => [[c]]
        | w :: ws => (c :: w) :: ws)
    []).filter (· ≠ [])

/-- Read a Python float literal (sign, digits, optional fraction) as a
rational: the fragment of `float(...)` exercised by well-known-text
coordinates.  Anything else is `none` (`ValueError`). -/
def floatChars? (l : List Char) : Option ℚ :=
  let sgn : ℚ × List Char :=
    match l with
    | '-' :: r => (-1, r)
    | '+' :: r => (1, r)
    | _ => (1, l)
  match splitFirstChar '.' sgn.2 with
  | none =>
    if sgn.2 ≠ [] ∧ sgn.2.all Char.isDigit then some (sgn.1 * (decFold 0 sgn.2 : ℚ))
    else none
  | some (a, b) =>
    if (a ++ b) ≠ [] ∧ (a ++ b).all Char.isDigit then
      some (sgn.1 * (decFold 0 (a ++ b) : ℚ) / 10 ^ b.length)
    else none

/-- The upper-cased marker `POINT(` checked by `_parse_point_wkt`. -/
def pointTag : List Char := ['P', 'O', 'I', 'N', 'T', '(']

/-- `insights.py` lines 35-51: decode a well-known-text point
`POINT(lon lat)` into its coordinate pair; any missing or structurally
invalid encoding gives `none`. -/
def _parse_point_wkt : Option String → Option (ℚ × ℚ)
  | none => none
  | some s =>
    if s.toList = [] then none
    else
      let cs := trimChars s.toList
      if ¬ ((cs.map Char.toUpper).take 6 = pointTag) ∨ cs.getLast? ≠ some ')' then none
      else
        let idx := cs.findIdx (· = '(')
        let inner := (cs.drop (idx + 1)).dropLast
        match wordsOf (inner.map (fun c => if c = ',' then ' ' else c)) with
        | [a, b] =>
          match floatChars? a, floatChars? b with
          | some lon, some lat => some (lon, lat)
          | _, _ => none
        | _ => none

/-! ## `insights.py`: timeseries and stats summaries -/

/-- A JSON-ish value stored under a key of a timeseries point. -/
inductive PtVal
  | s (v : String)
  | q (v : ℚ)
  | loc (lon lat : ℚ)
  | null
deriving DecidableEq

/-- `insights.py` lines 140-143: the requested projection fields — the
client list filtered to the allowed set when truthy, else all allowed
fields. -/
def requestedFields (p : InsightParams) : List String :=
  match p.timeseries_fields with
  | none => TIMESERIES_ALLOWED_FIELDS
  | some fs =>
    if fs = [] then TIMESERIES_ALLOWED_FIELDS
    else fs.filter (· ∈ TIMESERIES_ALLOWED_FIELDS)

/-- `insights.py` lines 161-173: build one emitted timeseries point.  The
`timestamp` key is written unconditionally (null when the row timestamp
is missing); the four projectable fields are written only when requested;
the location is the decoded point or null. -/
def buildPoint (requested : List String) (row : TelemetryRow) : List (String × PtVal) :=
  let ll := _parse_point_wkt row.location_wkt
  let loc : PtVal := match ll with | some q => PtVal.loc q.1 q.2 | none => PtVal.null
  let tsv : PtVal := match row.timestamp with
    | some t => PtVal.s ⟨natChars t⟩
    | none => PtVal.null
  [("timestamp", tsv)]
    ++ (if "temperature_c" ∈ requested then [("temperature_c", PtVal.q row.temperature_c)] else [])
    ++ (if "depth_m" ∈ requested then [("depth_m", PtVal.q row.depth_m)] else [])
    ++ (if "velocity_knots" ∈ requested then [("velocity_knots", PtVal.q row.velocity_knots)] else [])
    ++ (if "location" ∈ requested then [("location", loc)] else [])

/-- `timestamp ASC` (`insights.py` line 149); returned rows always carry a
timestamp because SQL `NULL` comparison already excluded the others. -/
def tsOrd (a b : TelemetryRow) : Prop := a.timestamp.getD 0 ≤ b.timestamp.getD 0

instance : DecidableRel tsOrd := fun a b => by unfold tsOrd; infer_instance

/-- `insights.py` lines 144-157: the telemetry window query — rows of the
vehicle whose (non-`NULL`) timestamp is at or after `window_start`,
ascending by timestamp, bounded to `timeseries_limit`. -/
def telemetryQuery (db : DB) (window_start : ℕ) (p : InsightParams) : List TelemetryRow :=
  (List.insertionSort tsOrd
    (db.telemetry.filter (fun r =>
      (r.auv_id = p.auv_id.getD "") &&
      (match r.timestamp with
       | some t => decide (window_start ≤ t)
       | none => false)))).take p.timeseries_limit.toNat

/-- The emitted `timeseries` summary block (`insights.py` lines 174-180). -/
structure TsBlock where
  auv_id : String
  window_minutes : ℕ
  fields : List String
  points : List (List (String × PtVal))
  count : ℕ
deriving DecidableEq

/-- `insights.py` lines 140-180: assemble the timeseries summary. -/
def buildTimeseries (db : DB) (window_start : ℕ) (p : InsightParams) : TsBlock :=
  let pts := (telemetryQuery db window_start p).map (buildPoint (requestedFields p))
  { auv_id := p.auv_id.getD ""
    window_minutes := p.window_minutes
    fields := requestedFields p
    points := pts
    count := pts.length }

/-- The emitted `stats` summary block (`insights.py` lines 216-222); the
aggregate `SUM` over an empty row set is `NULL`, hence the options. -/
structure StatsBlock where
  window_minutes : ℕ
  total_alerts : ℕ
  alerts_in_window : Option ℕ
  latest_alert_timestamp : Option String
  alerts_by_type : List (String × ℕ)
deriving DecidableEq

/-- `insights.py` lines 184-192: the stats filters reuse only the
`auv_id` / `type` filters (not `since`, not the cursor). -/
def statsPred (p : InsightParams) (r : AlertRow) : Bool :=
  (match p.auv_id with
   | none => true
   | some a => if a = "" then true else r.auv_id = a)
  && (match p.type with
      | none => true
      | some t => if t = "" then true else r.type = t)

/-- `insights.py` lines 182-222: assemble the stats summary from the two
aggregate queries. -/
def buildStats (db : DB) (window_start : ℕ) (p : InsightParams) : StatsBlock :=
  let ms := db.alerts.filter (statsPred p)
  let types := (ms.map (·.type)).foldl (fun acc t => if t ∈ acc then acc else acc ++ [t]) []
  { window_minutes := p.window_minutes
    total_alerts := ms.length
    alerts_in_window := if ms = [] then none else some ((ms.filter (fun r => window_start ≤ r.started_at)).length)
    latest_alert_timestamp := ((ms.map (·.started_at)).max?).map (fun t => ⟨natChars t⟩)
    alerts_by_type := types.map (fun t => (t, (ms.filter (·.type = t)).length)) }

/-! ## `insights.py`: `fetch_insights` -/

/-- The `summaries` object: at most one entry per key
(`timeseries_error`, `timeseries`, `stats`). -/
structure Summaries where
  timeseries_error : Option String := none
  timeseries : Option TsBlock := none
  stats : Option StatsBlock := none
deriving DecidableEq

/-- The response shape of `fetch_insights`: the alert listing, the optional
pagination cursor, and the optional summaries object. -/
structure InsightsOut where
  alerts : List AlertOut
  pagination : Option String := none
  summaries : Option Summaries := none
deriving DecidableEq

/-- `insights.py` lines 63-225: the body of `fetch_insights` after the
in-place clamping, on already-clamped params. -/
def fetchResult (db : DB) (now : ℕ) (p : InsightParams) : Except PyErr InsightsOut :=
  let modes := deriveModes p.summary p.summary_modes
  match alertsListing db p with
  | Except.error e => Except.error e
  | Except.ok (alerts, nc) =>
    if modes = [] then Except.ok { alerts := alerts, pagination := nc, summaries := none }
    else
      let window_start := now - p.window_minutes * 60
      let ts : Option String × Option TsBlock :=
        if "timeseries" ∈ modes then
          if truthyStr p.auv_id then (none, some (buildTimeseries db window_start p))
          else (some "timeseries summary requires auv_id", none)
        else (none, none)
      let st : Option StatsBlock :=
        if "stats" ∈ modes then some (buildStats db window_start p) else none
      Except.ok
        { alerts := alerts, pagination := nc,
          summaries := some { timeseries_error := ts.1, timeseries := ts.2, stats := st } }

/-- `insights.py` lines 54-225: `fetch_insights`.  The call first clamps
`limit` and `timeseries_limit` in place on the params object of the caller; the
returned pair is (result or raised exception, the params object as the
caller observes it after the call). -/
def fetch_insights (db : DB) (now : ℕ) (p0 : InsightParams) : Except PyErr InsightsOut × InsightParams :=
  let p := clampParams p0
  (fetchResult db now p, p)

/-! ## `main.py`: the `ConnectionManager` subscriber registry -/

/-- `starlette.websockets.WebSocketState` as read by `broadcast`. -/
inductive WSState
  | connected
  | disconnected
deriving DecidableEq

/-- A websocket subscriber connection: its identity, its client state, and
whether `send_json` raises on it. -/
structure WS where
  id : ℕ
  client_state : WSState
  send_fails : Bool
deriving DecidableEq

/-- `main.py` lines 33-37: the registry — the mutable connection list plus
the single `asyncio.Lock` guarding it. -/
structure ConnectionManager where
  active_connections : List WS
  lockHeld : Bool
deriving DecidableEq

/-- `main.py` line 42: the list mutation of `connect` — an unconditional
append (there is no membership check). -/
def connectOp (l : List WS) (w : WS) : List WS := l ++ [w]

/-- `main.py` lines 47-48: the list mutation of `disconnect` — remove the
first occurrence when present, no-op otherwise. -/
def disconnectOp (l : List WS) (w : WS) : List WS :=
  if w ∈ l then l.erase w else l

/-- `main.py` lines 45-49: `disconnect` awaits the registry lock and then
removes the connection.  The `asyncio.Lock` is not reentrant, so a call
made while the same task already holds the lock never resumes (`none`). -/
def disconnect (m : ConnectionManager) (w : WS) : Option ConnectionManager :=
  if m.lockHeld then none
  else some { m with active_connections := disconnectOp m.active_connections w }

/-- `main.py` lines 53-60: the send loop of `broadcast` under the lock.
Connections in client state `connected` receive the message unless their
send raises; a raised send is caught and the connection is collected for
removal; connections in any other state are skipped silently.  Returns
(deliveries in iteration order, collected failures in iteration order). -/
def broadcastSends (l : List WS) : List WS × List WS :=
  (l.filter (fun c => c.client_state = WSState.connected && !c.send_fails),
   l.filter (fun c => c.client_state = WSState.connected && c.send_fails))

/-- `main.py` lines 51-64: `broadcast` — acquire the lock, send to every
connection, then for each collected failure await `self.disconnect` while
the lock is still held.  The result is the list of connections the message
reached, and the registry state afterwards — `none` when the call never
returns (it blocks awaiting the lock it already holds). -/
def broadcast (m : ConnectionManager) : List WS × Option ConnectionManager :=
  if m.lockHeld then ([], none)
  else
    let locked : ConnectionManager := { m with lockHeld := true }
    let delivered := (broadcastSends m.active_connections).1
    let failures := (broadcastSends m.active_connections).2
    let cleaned : Option ConnectionManager :=
      failures.foldl (fun acc c => acc.bind (fun mm => disconnect mm c)) (some locked)
    (delivered, cleaned.map (fun mm => { mm with lockHeld := false }))

/-- A call against the registry from the transport layer: a client
connecting or disconnecting. -/
inductive RegOp
  | connect (w : WS)
  | disconnect (w : WS)
deriving DecidableEq

/-- Run a sequence of `connect` / `disconnect` calls (each acquires and
releases the free lock) against a connection list. -/
def applyOps : List RegOp → List WS → List WS
  | [], l => l
  | RegOp.connect w :: t, l => applyOps t (connectOp l w)
  | RegOp.disconnect w :: t, l => applyOps t (disconnectOp l w)

/-- The number of `connect` calls in a sequence. -/
def countConnects (ops : List RegOp) : ℕ :=
  ops.countP (fun op => match op with | RegOp.connect _ => true | _ => false)

/-- The number of `disconnect` calls that found their connection present
(each removes exactly one occurrence). -/
def effectiveDisconnects : List RegOp → List WS → ℕ
  | [], _ => 0
  | RegOp.connect w :: t, l => effectiveDisconnects t (connectOp l w)
  | RegOp.disconnect w :: t, l =>
    (if w ∈ l then 1 else 0) + effectiveDisconnects t (disconnectOp l w)

/-! ## `main.py`: the `monitor_telemetry` reconnect loop -/

/-- `main.py` line 108: the fixed reconnect delay. -/
def reconnect_delay : ℕ := 5

/-- How one connection iteration of `monitor_telemetry` ends: the message
stream finishing cleanly, a transport error (`aiohttp.ClientError`), or
any other exception — including a connection attempt that fails
immediately.  Every one of these is caught by the loop body. -/
inductive IterEnd
  | clean
  | clientError (msg : String)
  | unexpectedError (msg : String)
deriving DecidableEq

/-- The loop state: how many connection attempts have completed. -/
structure LoopState where
  attempts : ℕ
deriving DecidableEq

/-- `main.py` lines 120-151: one pass of the `while True` body.  Whatever
way the iteration ended, the exception (if any) is caught, and the loop
sleeps exactly `reconnect_delay` before the next attempt: the returned
delay does not depend on the outcome or on the attempt count, and no
outcome leaves the loop. -/
def monitorStep (_outcome : IterEnd) (s : LoopState) : LoopState × ℕ :=
  ({ attempts := s.attempts + 1 }, reconnect_delay)

/-- The loop state before attempt `n`, given the outcome of every
connection attempt; total in `n`, so the loop reaches every attempt. -/
def monitorTrace (feed : ℕ → IterEnd) : ℕ → LoopState
  | 0 => { attempts := 0 }
  | n + 1 => (monitorStep (feed n) (monitorTrace feed n)).1

/-- Total time slept before attempt `n`. -/
def monitorElapsed (feed : ℕ → IterEnd) : ℕ → ℕ
  | 0 => 0
  | n + 1 => monitorElapsed feed n + (monitorStep (feed n) (monitorTrace feed n)).2

/-! ## Concrete inputs used by the example-level theorems -/

/-- The four alerts of the §8 pagination example: `started_at` values
`T3, T2, T2, T1` with ids `40, 30, 20, 10` (here `T1 = 1 < T2 = 2 < T3 = 3`). -/
def row40 : AlertRow :=
  { id := 40, auv_id := "auv-1", type := "environmental", severity := "high",
    status := "open", message := "m40", started_at := 3 }

def row30 : AlertRow :=
  { id := 30, auv_id := "auv-1", type := "environmental", severity := "high",
    status := "open", message := "m30", started_at := 2 }

def row20 : AlertRow :=
  { id := 20, auv_id := "auv-1", type := "environmental", severity := "high",
    status := "open", message := "m20", started_at := 2 }

def row10 : AlertRow :=
  { id := 10, auv_id := "auv-1", type := "environmental", severity := "high",
    status := "open", message := "m10", started_at := 1 }

/-- The pagination-example table. -/
def exampleDB : DB := { alerts := [row10, row20, row30, row40], telemetry := [] }

/-- A database with no stored rows. -/
def emptyDB : DB := { alerts := [], telemetry := [] }

/-- A subscriber in state connected whose send raises. -/
def failingWS : WS := { id := 0, client_state := WSState.connected, send_fails := true }

/-- A healthy connected subscriber. -/
def healthyWS : WS := { id := 1, client_state := WSState.connected, send_fails := false }

/-- A subscriber that has already transitioned to state disconnected. -/
def staleWS : WS := { id := 2, client_state := WSState.disconnected, send_fails := true }

/-- A telemetry row with no timestamp and an undecodable location. -/
def rowNoTs : TelemetryRow :=
  { auv_id := "auv-1", timestamp := none, temperature_c := 4, depth_m := 100,
    velocity_knots := 2, location_wkt := some "GARBAGE" }

/-- A request with `summary = true` and no mode list, vehicle filter absent. -/
def summaryOnlyParams : InsightParams := { summary := true }

/-- The response `fetch_insights` produces for `summaryOnlyParams` against
`exampleDB`: the full alert listing plus a summaries object holding only
the `timeseries_error` field. -/
def exOutErr : InsightsOut :=
  { alerts := [alertOut row40, alertOut row30, alertOut row20, alertOut row10]
    pagination := none
    summaries := some { timeseries_error := some "timeseries summary requires auv_id"
                        timeseries := none, stats := none } }

/-- Decidable equality of results, used by the example-level theorems. -/
instance {ε α : Type} [DecidableEq ε] [DecidableEq α] : DecidableEq (Except ε α)
  | Except.error e, Except.error f =>
    match decEq e f with
    | isTrue h => isTrue (by rw [h])
    | isFalse h => isFalse (fun hh => h (Except.error.inj hh))
  | Except.error _, Except.ok _ => isFalse (fun hh => Except.noConfusion hh)
  | Except.ok _, Except.error _ => isFalse (fun hh => Except.noConfusion hh)
  | Except.ok a, Except.ok b =>
    match decEq a b with
    | isTrue h => isTrue (by rw [h])
    | isFalse h => isFalse (fun hh => h (Except.ok.inj hh))

/-! ## Helper lemmas: decimal rendering round-trips -/

theorem digitChar_isDigit {n : ℕ} (h : n < 10) : (digitChar n).isDigit = true := by
  interval_cases n <;> decide

theorem digVal_digitChar {n : ℕ} (h : n < 10) : digVal (digitChar n) = n := by
  interval_cases n <;> decide

theorem natCharsAux_all_isDigit :
    ∀ fuel n, n < fuel → ∀ c ∈ natCharsAux fuel n, c.isDigit = true := by
  intro fuel
  induction fuel with
  | zero => intro n h; omega
  | succ f ih =>
    intro n _ c hc
    unfold natCharsAux at hc
    by_cases h10 : n < 10
    · simp only [if_pos h10, List.mem_singleton] at hc
      subst hc; exact digitChar_isDigit h10
    · simp only [if_neg h10, List.mem_append, List.mem_singleton] at hc
      rcases hc with hc | hc
      · exact ih (n / 10) (by omega) c hc
      · subst hc; exact digitChar_isDigit (Nat.mod_lt _ (by omega))

theorem natCharsAux_ne_nil : ∀ fuel n, n < fuel → natCharsAux fuel n ≠ [] := by
  intro fuel n h
  cases fuel with
  | zero => omega
  | succ f =>
    unfold natCharsAux
    by_cases h10 : n < 10
    · simp [h10]
    · simp [h10]

theorem decFold_append (s : ℕ) (a b : List Char) :
    decFold s (a ++ b) = decFold (decFold s a) b := by
  simp [decFold, List.foldl_append]

theorem decFold_natCharsAux :
    ∀ fuel n, n < fuel → decFold 0 (natCharsAux fuel n) = n := by
  intro fuel
  induction fuel with
  | zero => intro n h; omega
  | succ f ih =>
    intro n hn
    unfold natCharsAux
    by_cases h10 : n < 10
    · simp only [if_pos h10]
      simp [decFold, digVal_digitChar h10]
    · simp only [if_neg h10]
      rw [decFold_append, ih (n / 10) (by omega)]
      have : n % 10 < 10 := Nat.mod_lt _ (by omega)
      simp [decFold, digVal_digitChar this]
      omega

theorem natChars_all_isDigit (n : ℕ) : ∀ c ∈ natChars n, c.isDigit = true :=
  natCharsAux_all_isDigit (n + 1) n (Nat.lt_succ_self n)

theorem natChars_ne_nil (n : ℕ) : natChars n ≠ [] :=
  natCharsAux_ne_nil (n + 1) n (Nat.lt_succ_self n)

theorem decNat?_natChars (n : ℕ) : decNat? (natChars n) = some n := by
  unfold decNat?
  rw [if_pos]
  · unfold natChars
    rw [decFold_natCharsAux (n + 1) n (Nat.lt_succ_self n)]
  · refine ⟨natChars_ne_nil n, ?_⟩
    rw [List.all_eq_true]
    exact natChars_all_isDigit n

theorem natChars_head?_ne_minus (n : ℕ) : (natChars n).head? ≠ some '-' := by
  cases h : natChars n with
  | nil => simp
  | cons c t =>
    have hc : c.isDigit = true := by
      apply natChars_all_isDigit n
      rw [h]; exact List.mem_cons_self _ _
    simp only [List.head?_cons, ne_eq, Option.some.injEq]
    intro he
    rw [he] at hc
    exact absurd hc (by decide)

theorem decInt?_intChars (i : ℤ) : decInt? (intChars i) = some i := by
  unfold decInt? intChars
  by_cases hneg : i < 0
  · simp only [if_pos hneg, List.head?_cons, Option.some.injEq, if_true,
      eq_self_iff_true, List.tail_cons, decNat?_natChars, Option.map_some',
      Int.ofNat_eq_coe]
    omega
  · rw [if_neg hneg]
    rw [if_neg (natChars_head?_ne_minus i.toNat)]
    rw [decNat?_natChars, Option.map_some']
    simp only [Option.some.injEq, Int.ofNat_eq_coe]
    omega

theorem splitFirstChar_append (sep : Char) :
    ∀ (a b : List Char), sep ∉ a → splitFirstChar sep (a ++ sep :: b) = some (a, b) := by
  intro a
  induction a with
  | nil => intro b _; simp [splitFirstChar]
  | cons c t ih =>
    intro b hmem
    have hc : c ≠ sep := fun h => hmem (h ▸ List.mem_cons_self _ _)
    have ht : sep ∉ t := fun h => hmem (List.mem_cons_of_mem _ h)
    simp only [List.cons_append, splitFirstChar, if_neg hc, List.append_eq,
      ih b ht, Option.map_some']

/-! ## Claim C4: cursor round-trip and malformed-cursor behaviour -/

/-- C4: for every `(started_at, id)` pair, encoding it into a pagination
cursor and decoding the result reproduces exactly the same pair; and for
every structurally invalid cursor string (one the decoder rejects),
the cursor contributes no filter predicate — every row passes — and no
error is raised (the decoder is a total function into `Option`). -/
theorem cursor_roundtrip_and_malformed_no_filter :
    (∀ (t : ℕ) (i : ℤ), decode_cursor (encode_cursor t i) = some (t, i))
    ∧ (∀ s : String, decode_cursor s = none → ∀ r : AlertRow, cursorFilter (some s) r = true) := by
  constructor
  · intro t i
    unfold decode_cursor encode_cursor
    have hmem : '|' ∉ natChars t := by
      intro hm
      have hd := natChars_all_isDigit t _ hm
      exact absurd hd (by decide)
    rw [show (⟨natChars t ++ '|' :: intChars i⟩ : String).toList
          = natChars t ++ '|' :: intChars i from rfl]
    rw [splitFirstChar_append '|' _ _ hmem]
    show (match decNat? (natChars t), decInt? (intChars i) with
      | some a, some b => some (a, b)
      | _, _ => none) = some (t, i)
    rw [decNat?_natChars, decInt?_intChars]
  · intro s hs r
    unfold cursorFilter
    by_cases he : s = ""
    · simp [he]
    · simp [he, hs]

theorem cursor_roundtrip_and_malformed_no_filter_witness :
    decode_cursor (encode_cursor 2 20) = some (2, 20)
    ∧ cursorFilter (some "GARBAGE") row40 = true :=
  ⟨cursor_roundtrip_and_malformed_no_filter.1 2 20,
   cursor_roundtrip_and_malformed_no_filter.2 "GARBAGE" (by decide) row40⟩

/-! ## Claim C5: summary-mode derivation -/

/-- The dedup fold of `deriveModes` run from any accumulator appends the
first-seen de-duplication of the not-yet-seen elements. -/
theorem foldl_dedup (l : List String) :
    ∀ acc : List String,
      l.foldl (fun a m => if m ∈ a then a else a ++ [m]) acc
        = acc ++ dedupFirstSeen (l.filter (· ∉ acc)) := by
  induction l with
  | nil => intro acc; simp [dedupFirstSeen]
  | cons h t ih =>
    intro acc
    by_cases hm : h ∈ acc
    · simp only [List.foldl_cons, if_pos hm]
      rw [ih acc]
      congr 2
      simp [List.filter_cons, hm]
    · simp only [List.foldl_cons, if_neg hm]
      rw [ih (acc ++ [h])]
      have hfil : t.filter (fun x => decide (x ∉ acc ++ [h]))
          = (t.filter (fun x => decide (x ∉ acc))).filter (fun x => decide (x ≠ h)) := by
        rw [List.filter_filter]
        apply List.filter_congr
        intro x _
        simp only [List.mem_append, List.mem_singleton, not_or, decide_not,
          Bool.decide_and, decide_eq_true_eq]
        cases hxa : decide (x ∈ acc) <;> cases hxh : decide (x = h) <;> simp_all
      rw [hfil, List.append_assoc]
      rw [List.filter_cons_of_pos (by simpa using hm)]
      conv_rhs => rw [dedupFirstSeen]
      rfl

/-- C5: the active summary-mode list is `["timeseries"]` when `summary` is
set and no (truthy) explicit mode list is given; otherwise it is the
client mode list de-duplicated preserving first-seen order and intersected
with the allowed set — unknown modes silently dropped.  In particular
`summary_modes = ["stats", "timeseries", "bogus"]` with `summary = false`
activates exactly `["stats", "timeseries"]` in that order. -/
theorem derive_modes_matches_spec :
    (∀ (s : Bool) (ms : Option (List String)),
      deriveModes s ms =
        if s = true ∧ (ms = none ∨ ms = some []) then ["timeseries"]
        else (dedupFirstSeen (ms.getD [])).filter (· ∈ SUMMARY_MODES_ALLOWED))
    ∧ deriveModes false (some ["stats", "timeseries", "bogus"]) = ["stats", "timeseries"] := by
  constructor
  · intro s ms
    cases ms with
    | none => cases s <;> simp [deriveModes, dedupFirstSeen, SUMMARY_MODES_ALLOWED]
    | some l =>
      cases l with
      | nil => cases s <;> simp [deriveModes, dedupFirstSeen, SUMMARY_MODES_ALLOWED]
      | cons h t =>
        rw [if_neg (by simp)]
        unfold deriveModes
        simp only [Option.getD_some, List.cons_ne_self, and_false, if_false,
          List.cons.injEq, reduceCtorEq, if_neg (List.cons_ne_nil h t)]
        rw [foldl_dedup]
        simp
  · decide

/-! ## Claim C1: broadcast with a failing subscriber -/

/-- C1 (code bug): with one failing and one healthy connected subscriber,
`broadcast` delivers the message to the healthy subscriber, but the
post-iteration cleanup awaits `self.disconnect` while `broadcast` itself
still holds the non-reentrant registry lock, so the call never returns
(`none`): the failing subscriber is never removed and the registry size is
never decremented.  A subscriber already in state disconnected is skipped
silently — no exception is raised for it and it is not removed either. -/
theorem broadcast_failing_subscriber_deadlocks :
    broadcast { active_connections := [failingWS, healthyWS], lockHeld := false }
      = ([healthyWS], none)
    ∧ broadcast { active_connections := [staleWS, healthyWS], lockHeld := false }
      = ([healthyWS], some { active_connections := [staleWS, healthyWS], lockHeld := false }) := by
  decide

/-! ## Claim C2: alert listing pagination -/

/-- C2 (code bug): on the §8 example table (`started_at` values
`T3, T2, T2, T1`, ids `40, 30, 20, 10`) with `limit = 3`, the query itself
orders and bounds the rows as claimed — the first three rows in
`(started_at DESC, id DESC)` order are ids `40, 30, 20` — but because the
returned row count equals `limit`, `fetch_insights` evaluates `last.id`
while `id` is not among the selected columns, so the whole request raises
`AttributeError` instead of returning the page with its cursor. -/
theorem alert_listing_full_page_raises_attribute_error :
    ((List.insertionSort alertOrd
        (exampleDB.alerts.filter (alertPred (clampParams { limit := 3 })))).take 3).map (·.id)
      = [40, 30, 20]
    ∧ (fetch_insights exampleDB 0 { limit := 3 }).1
      = Except.error (PyErr.attributeError "id") := by
  decide

/-! ## Claim C3: registry size accounting -/

/-- C3 (counterexample): `connect` appends unconditionally — there is no
membership check — so connecting an already-present connection duplicates
it and the registry size double-counts it. -/
theorem connect_duplicates_existing_connection :
    applyOps [RegOp.connect failingWS, RegOp.connect failingWS] []
      = [failingWS, failingWS]
    ∧ (applyOps [RegOp.connect failingWS, RegOp.connect failingWS] []).length ≠ 1 := by
  decide

/-- C3 (amended): for every sequence of `connect` / `disconnect` calls from
any starting registry, the live-subscriber count equals the starting count
plus the number of connects minus the number of disconnects that found
their connection present (each such disconnect removing exactly one
occurrence); the count never goes negative because the effective
disconnects never exceed the starting count plus the connects.  A repeated
`connect` of the same connection, however, is counted again (no
de-duplication). -/
theorem registry_size_connects_minus_effective_disconnects :
    ∀ (ops : List RegOp) (l : List WS),
      (applyOps ops l).length + effectiveDisconnects ops l = l.length + countConnects ops
      ∧ effectiveDisconnects ops l ≤ l.length + countConnects ops := by
  intro ops
  induction ops with
  | nil =>
    intro l
    simp [applyOps, effectiveDisconnects, countConnects]
  | cons op t ih =>
    intro l
    cases op with
    | connect w =>
      have h := ih (connectOp l w)
      have hc : countConnects (RegOp.connect w :: t) = countConnects t + 1 := by
        simp [countConnects, List.countP_cons]
      have hl : (connectOp l w).length = l.length + 1 := by simp [connectOp]
      simp only [applyOps, effectiveDisconnects, hc]
      omega
    | disconnect w =>
      obtain ⟨h1, h2⟩ := ih (disconnectOp l w)
      have hc : countConnects (RegOp.disconnect w :: t) = countConnects t := by
        simp [countConnects, List.countP_cons]
      by_cases hm : w ∈ l
      · have hl : (disconnectOp l w).length = l.length - 1 := by
          simp [disconnectOp, hm, List.length_erase_of_mem hm]
        have hpos : 0 < l.length := List.length_pos_of_mem hm
        simp only [applyOps, effectiveDisconnects, hc, if_pos hm]
        omega
      · have hl : disconnectOp l w = l := by simp [disconnectOp, hm]
        rw [hl] at h1 h2
        simp only [applyOps, effectiveDisconnects, hc, if_neg hm, hl]
        omega

/-! ## Claim C8: the reconnect loop -/

/-- C8: whatever the outcome of every connection attempt — including a
feed that fails immediately on every attempt — the loop reaches attempt
`n` for every `n` (it never terminates on error and has no maximum retry
count), each iteration is followed by a wait of exactly the fixed
`reconnect_delay = 5`, independent of the outcome and of the attempt
count (no backoff growth), and the total time slept before attempt `n` is
exactly `reconnect_delay * n`. -/
theorem monitor_reconnects_forever_with_constant_delay :
    ∀ (feed : ℕ → IterEnd) (n : ℕ),
      (monitorStep (feed n) (monitorTrace feed n)).2 = reconnect_delay
      ∧ reconnect_delay = 5
      ∧ (monitorTrace feed n).attempts = n
      ∧ monitorElapsed feed n = reconnect_delay * n := by
  intro feed n
  refine ⟨rfl, rfl, ?_, ?_⟩
  · induction n with
    | zero => rfl
    | succ k ih => simp [monitorTrace, monitorStep, ih]
  · induction n with
    | zero => rfl
    | succ k ih =>
      simp only [monitorElapsed, monitorStep, ih, reconnect_delay]
      omega

/-! ## Claim C9: `fetch_insights` mutates its params -/

/-- C9 (counterexample): `fetch_insights` clamps `limit` in place on the
params object of the caller, so a call with `limit = 500` leaves that
object changed (`limit` becomes `100`): the params value is not left
unchanged. -/
theorem fetch_insights_mutates_caller_params :
    (fetch_insights emptyDB 0 { limit := 500 }).2 ≠ ({ limit := 500 } : InsightParams)
    ∧ ((fetch_insights emptyDB 0 { limit := 500 }).2).limit = 100 := by
  decide

/-- C9 (amended): apart from issuing read queries, the only side effect of
`fetch_insights` on the caller is the in-place clamping of the params
object: after the call the object equals `clampParams` of its old value —
`limit` clamped to `[1, 100]`, `timeseries_limit` clamped to `[10, 2000]`,
and every other field unchanged. -/
theorem fetch_insights_clamps_params_in_place :
    ∀ (db : DB) (now : ℕ) (p : InsightParams),
      (fetch_insights db now p).2 = clampParams p
      ∧ (clampParams p).auv_id = p.auv_id
      ∧ (clampParams p).type = p.type
      ∧ (clampParams p).summary = p.summary
      ∧ (clampParams p).summary_modes = p.summary_modes
      ∧ (clampParams p).window_minutes = p.window_minutes
      ∧ (clampParams p).timeseries_fields = p.timeseries_fields
      ∧ (clampParams p).since = p.since
      ∧ (clampParams p).cursor = p.cursor
      ∧ (clampParams p).limit = max 1 (min p.limit 100)
      ∧ (clampParams p).timeseries_limit = max 10 (min p.timeseries_limit 2000) :=
  fun _ _ _ => ⟨rfl, rfl, rfl, rfl, rfl, rfl, rfl, rfl, rfl, rfl, rfl⟩

/-! ## Claim C6: timeseries requested without a vehicle filter -/

/-- C6: whenever the `timeseries` mode is active but the vehicle filter is
falsy, a successful `fetch_insights` response carries a summaries object
whose `timeseries_error` field is set, contains no `timeseries` entry, and
its alert listing is exactly the base alert listing; and the call raises
only what the base alert listing itself raises (the missing vehicle filter
itself never raises). -/
theorem timeseries_without_vehicle_emits_error_field :
    ∀ (db : DB) (now : ℕ) (p : InsightParams),
      "timeseries" ∈ deriveModes p.summary p.summary_modes →
      truthyStr p.auv_id = false →
      (∀ out, (fetch_insights db now p).1 = Except.ok out →
        ((∃ al nc, alertsListing db (clampParams p) = Except.ok (al, nc) ∧ out.alerts = al)
          ∧ ∃ s, out.summaries = some s
              ∧ s.timeseries_error = some "timeseries summary requires auv_id"
              ∧ s.timeseries = none))
      ∧ (∀ e, (fetch_insights db now p).1 = Except.error e →
          alertsListing db (clampParams p) = Except.error e) := by
  intro db now p h1 h2
  have h1c : "timeseries" ∈ deriveModes (clampParams p).summary (clampParams p).summary_modes := h1
  have h2c : truthyStr (clampParams p).auv_id = false := h2
  have hne : deriveModes (clampParams p).summary (clampParams p).summary_modes ≠ [] :=
    List.ne_nil_of_mem h1c
  have hfr : (fetch_insights db now p).1 = fetchResult db now (clampParams p) := rfl
  cases hl : alertsListing db (clampParams p) with
  | error e0 =>
    constructor
    · intro out hout
      rw [hfr] at hout
      unfold fetchResult at hout
      rw [hl] at hout
      exact absurd hout (by simp)
    · intro e he
      rw [hfr] at he
      unfold fetchResult at he
      rw [hl] at he
      simp only [Except.error.injEq] at he
      rw [he]
  | ok pr =>
    obtain ⟨al, nc⟩ := pr
    constructor
    · intro out hout
      rw [hfr] at hout
      unfold fetchResult at hout
      rw [hl] at hout
      simp only [if_neg hne, h1c, if_pos h1c, h2c, Bool.false_eq_true, if_false,
        Except.ok.injEq] at hout
      subst hout
      refine ⟨⟨al, nc, rfl, rfl⟩, ?_⟩
      exact ⟨_, rfl, rfl, rfl⟩
    · intro e he
      rw [hfr] at he
      unfold fetchResult at he
      rw [hl] at he
      by_cases hmm : deriveModes (clampParams p).summary (clampParams p).summary_modes = []
      · exact absurd hmm hne
      · simp only [if_neg hmm] at he
        exact absurd he (by simp)

theorem timeseries_without_vehicle_emits_error_field_witness :
    (∃ al nc, alertsListing exampleDB (clampParams summaryOnlyParams) = Except.ok (al, nc)
        ∧ exOutErr.alerts = al)
      ∧ ∃ s, exOutErr.summaries = some s
          ∧ s.timeseries_error = some "timeseries summary requires auv_id"
          ∧ s.timeseries = none :=
  (timeseries_without_vehicle_emits_error_field exampleDB 0 summaryOnlyParams
    (by decide) (by decide)).1 exOutErr (by decide)

/-! ## Claim C7: well-known-text point decoding -/

/-- C7: the location encoding `"POINT(12.5 -3.2)"` decodes to the pair
`(lon, lat) = (12.5, -3.2)`; a missing encoding and the structurally
invalid encoding `"GARBAGE"` decode to `none`; a row whose encoding fails
to decode still yields its point, with a null location, and no row is
dropped — the timeseries summary emits exactly one point per queried row
(the decoder is total, so no encoding fails the row or the query). -/
theorem parse_point_wkt_decodes_and_invalid_is_null :
    _parse_point_wkt (some "POINT(12.5 -3.2)") = some (12.5, -3.2)
    ∧ _parse_point_wkt (some "GARBAGE") = none
    ∧ _parse_point_wkt none = none
    ∧ (∀ (requested : List String) (row : TelemetryRow),
        _parse_point_wkt row.location_wkt = none → "location" ∈ requested →
          (buildPoint requested row).lookup "location" = some PtVal.null)
    ∧ (∀ (db : DB) (window_start : ℕ) (p : InsightParams),
        (buildTimeseries db window_start p).points.length
          = (telemetryQuery db window_start p).length) := by
  refine ⟨?_, by decide, rfl, ?_, ?_⟩
  · show some ((1 : ℚ) * ((125 : ℕ) : ℚ) / 10 ^ 1, (-1 : ℚ) * ((32 : ℕ) : ℚ) / 10 ^ 1)
      = some (12.5, -3.2)
    simp only [Option.some.injEq, Prod.mk.injEq]
    constructor <;> norm_num
  · intro req row hdec hmem
    by_cases h1 : "temperature_c" ∈ req <;> by_cases h2 : "depth_m" ∈ req <;>
      by_cases h3 : "velocity_knots" ∈ req <;>
      simp [buildPoint, hdec, hmem, h1, h2, h3, List.lookup]
  · intro db window_start p
    simp [buildTimeseries]

theorem parse_point_wkt_invalid_witness :
    (buildPoint ["location"] rowNoTs).lookup "location" = some PtVal.null :=
  parse_point_wkt_decodes_and_invalid_is_null.2.2.2.1 ["location"] rowNoTs
    (by decide) (by decide)

/-! ## Claim C10: the timestamp key of a timeseries point -/

/-- C10: every emitted timeseries point contains the `timestamp` key, for
every requested field projection (the key cannot be projected away), and a
row whose timestamp value is missing yields a null timestamp for that
point rather than an error. -/
theorem timeseries_point_always_has_timestamp :
    ∀ (requested : List String) (row : TelemetryRow),
      "timestamp" ∈ (buildPoint requested row).map Prod.fst
      ∧ (row.timestamp = none →
          (buildPoint requested row).lookup "timestamp" = some PtVal.null) := by
  intro req row
  constructor
  · simp [buildPoint]
  · intro h
    simp [buildPoint, h, List.lookup]

theorem timeseries_point_always_has_timestamp_witness :
    (buildPoint ["temperature_c"] rowNoTs).lookup "timestamp" = some PtVal.null :=
  (timeseries_point_always_has_timestamp ["temperature_c"] rowNoTs).2 rfl
